import Mathlib

/-!
Verification of the motion-triggered capture-and-recording pipeline of the
road-ranger repository (`src/watcher/main.py`, `src/watcher/video_recorder.py`,
`src/motion_detector.py`, configuration in `src/watcher/config.py`).

The Python code is shallowly embedded: the per-sample debounce callback
`MotionRecordingSystem._on_motion_state_change` becomes a pure step function on
an explicit state record, the frame-collection loop
`MotionRecordingSystem._collect_frames` becomes a recursion over a list of
per-tick environment readings, `VideoRecorder.record_clip` becomes a function
from an abstract file-system state (a map from paths to file sizes) to a
result together with the list of file operations it performed, and the
retention sweep `MotionRecordingSystem._cleanup_old_clips` becomes a filter
over directory listings.
-/

namespace RoadRanger

/-! ## Configuration (`src/watcher/config.py`) -/

/-- Config value `MOTION_PERSISTENCE_FRAMES = 1`. -/
def MOTION_PERSISTENCE_FRAMES : Nat := 1

/-- Config value `MOTION_COOLDOWN_FRAMES = 2`. -/
def MOTION_COOLDOWN_FRAMES : Nat := 2

/-- Config value `CLIP_DURATION = 10` (seconds). -/
def CLIP_DURATION : Int := 10

/-- Config value `MAX_CLIP_DURATION = 30` (seconds). -/
def MAX_CLIP_DURATION : Int := 30

/-- Config value `FORCE_STOP_AFTER_MOTION = 5` (seconds). -/
def FORCE_STOP_AFTER_MOTION : Int := 5

/-- Config value `CLIP_RETENTION_DAYS = 7` (days). -/
def CLIP_RETENTION_DAYS : Int := 7

/-- Config value `MIN_MOTION_AREA = 1500` (pixels). -/
def MIN_MOTION_AREA : Nat := 1500

/-- Config value `MOTION_THRESHOLD = 80`. -/
def MOTION_THRESHOLD : Nat := 80

/-- Config value `CLIP_FORMAT = "mp4"`. -/
def CLIP_FORMAT : String := "mp4"

/-- Config value `FPS = 60`. -/
def FPS : Nat := 60

/-! ## Debounce state machine
(`MotionRecordingSystem._on_motion_state_change`, `src/watcher/main.py` 98-127,
together with the flag updates of `_start_recording_clip` / `_finish_recording_clip`).

The mutable attributes read and written by the callback are gathered in
`DebounceState`.  The persistence and cooldown thresholds
(`config.MOTION_PERSISTENCE_FRAMES` / `config.MOTION_COOLDOWN_FRAMES`, named
`PERSISTENCE_THRESHOLD` / `COOLDOWN_THRESHOLD` in the specification) are kept
as parameters so that properties can be stated for every threshold value. -/

structure DebounceState where
  motion_persistence_count : Nat
  motion_cooldown_count : Nat
  is_recording_clip : Bool
  last_motion_time : Int
deriving DecidableEq, Repr

/-- The edge-triggered commands of the state machine. -/
inductive RecEvent
  | StartRecording
  | StopRecording
deriving DecidableEq, Repr

/-- Initial attribute values from `MotionRecordingSystem.__init__`. -/
def initialState : DebounceState :=
  { motion_persistence_count := 0
    motion_cooldown_count := 0
    is_recording_clip := false
    last_motion_time := 0 }

/-- One invocation of `_on_motion_state_change(motion_detected)`:
on a `true` sample the persistence counter is incremented, the cooldown counter
reset and `last_motion_time` updated, and recording starts once the persistence
counter has reached the threshold while no clip is being recorded; on a `false`
sample the cooldown counter is incremented and the persistence counter reset,
and recording stops once the cooldown counter has reached the threshold while a
clip is being recorded.  `_start_recording_clip` / `_finish_recording_clip`
toggle `is_recording_clip`. -/
def on_motion_state_change (persistenceFrames cooldownFrames : Nat) (now : Int)
    (s : DebounceState) (motionDetected : Bool) : DebounceState × Option RecEvent :=
  if motionDetected then
    let s1 := { s with
      motion_persistence_count := s.motion_persistence_count + 1
      motion_cooldown_count := 0
      last_motion_time := now }
    if persistenceFrames ≤ s1.motion_persistence_count ∧ s1.is_recording_clip = false then
      ({ s1 with is_recording_clip := true }, some RecEvent.StartRecording)
    else
      (s1, none)
  else
    let s1 := { s with
      motion_cooldown_count := s.motion_cooldown_count + 1
      motion_persistence_count := 0 }
    if cooldownFrames ≤ s1.motion_cooldown_count ∧ s1.is_recording_clip = true then
      ({ s1 with is_recording_clip := false }, some RecEvent.StopRecording)
    else
      (s1, none)

/-- A `true` sample that reaches the persistence threshold outside a recording
starts one. -/
theorem step_true_start (persistenceFrames cooldownFrames : Nat) (now : Int)
    (s : DebounceState)
    (h : persistenceFrames ≤ s.motion_persistence_count + 1 ∧ s.is_recording_clip = false) :
    on_motion_state_change persistenceFrames cooldownFrames now s true =
      ({ motion_persistence_count := s.motion_persistence_count + 1
         motion_cooldown_count := 0
         is_recording_clip := true
         last_motion_time := now }, some RecEvent.StartRecording) := by
  simp [on_motion_state_change, h]

/-- A `true` sample that does not satisfy the start condition only updates the
counters. -/
theorem step_true_no_start (persistenceFrames cooldownFrames : Nat) (now : Int)
    (s : DebounceState)
    (h : ¬ (persistenceFrames ≤ s.motion_persistence_count + 1 ∧ s.is_recording_clip = false)) :
    on_motion_state_change persistenceFrames cooldownFrames now s true =
      ({ motion_persistence_count := s.motion_persistence_count + 1
         motion_cooldown_count := 0
         is_recording_clip := s.is_recording_clip
         last_motion_time := now }, none) := by
  simp [on_motion_state_change, h]

/-- A `false` sample that reaches the cooldown threshold during a recording
stops it. -/
theorem step_false_stop (persistenceFrames cooldownFrames : Nat) (now : Int)
    (s : DebounceState)
    (h : cooldownFrames ≤ s.motion_cooldown_count + 1 ∧ s.is_recording_clip = true) :
    on_motion_state_change persistenceFrames cooldownFrames now s false =
      ({ motion_persistence_count := 0
         motion_cooldown_count := s.motion_cooldown_count + 1
         is_recording_clip := false
         last_motion_time := s.last_motion_time }, some RecEvent.StopRecording) := by
  simp [on_motion_state_change, h]

/-- A `false` sample that does not satisfy the stop condition only updates the
counters. -/
theorem step_false_no_stop (persistenceFrames cooldownFrames : Nat) (now : Int)
    (s : DebounceState)
    (h : ¬ (cooldownFrames ≤ s.motion_cooldown_count + 1 ∧ s.is_recording_clip = true)) :
    on_motion_state_change persistenceFrames cooldownFrames now s false =
      ({ motion_persistence_count := 0
         motion_cooldown_count := s.motion_cooldown_count + 1
         is_recording_clip := s.is_recording_clip
         last_motion_time := s.last_motion_time }, none) := by
  simp [on_motion_state_change, h]

/-- Feed a list of motion samples to the callback one by one, starting at
sample index `i` in state `s`; collect the emitted events tagged with the
index of the sample that produced them.  The sample index doubles as the
clock value passed for `time.time()`. -/
def runDebounceFrom (persistenceFrames cooldownFrames : Nat) (s : DebounceState)
    (i : Nat) : List Bool → List (Nat × RecEvent)
  | [] => []
  | b :: rest =>
    (on_motion_state_change persistenceFrames cooldownFrames (Int.ofNat i) s b).2.toList.map
        (fun e => (i, e)) ++
      runDebounceFrom persistenceFrames cooldownFrames
        (on_motion_state_change persistenceFrames cooldownFrames (Int.ofNat i) s b).1
        (i + 1) rest

/-- Run the debounce callback over a whole sample sequence from the initial
state. -/
def runDebounce (persistenceFrames cooldownFrames : Nat) (samples : List Bool) :
    List (Nat × RecEvent) :=
  runDebounceFrom persistenceFrames cooldownFrames initialState 0 samples

/-- Length of the initial run of consecutive `true` samples. -/
def headRun : List Bool → Nat
  | [] => 0
  | b :: rest => if b then headRun rest + 1 else 0

/-- Length of the longest run of consecutive `true` samples. -/
def maxRun : List Bool → Nat
  | [] => 0
  | b :: rest => if b then max (headRun rest + 1) (maxRun rest) else maxRun rest

theorem headRun_le_maxRun : ∀ l : List Bool, headRun l ≤ maxRun l := by
  intro l
  induction l with
  | nil => exact Nat.le_refl 0
  | cons b rest ih =>
    cases b with
    | false => simp [headRun, maxRun]
    | true => simp [headRun, maxRun]

theorem maxRun_le_cons (b : Bool) (rest : List Bool) : maxRun rest ≤ maxRun (b :: rest) := by
  cases b with
  | false => simp [maxRun]
  | true => simp [maxRun]

/-- Auxiliary invariant for the no-start property: if the current persistence
counter plus the length of the pending initial true-run stays below the
threshold, and every true-run in the remaining samples is below the threshold,
then no `StartRecording` is emitted. -/
theorem no_start_aux (persistenceFrames cooldownFrames : Nat) :
    ∀ (samples : List Bool) (s : DebounceState) (i : Nat),
      s.motion_persistence_count + headRun samples < persistenceFrames →
      maxRun samples < persistenceFrames →
      ∀ q ∈ runDebounceFrom persistenceFrames cooldownFrames s i samples,
        q.2 ≠ RecEvent.StartRecording := by
  intro samples
  induction samples with
  | nil =>
    intro s i h1 h2 q hq
    simp [runDebounceFrom] at hq
  | cons b rest ih =>
    intro s i h1 h2 q hq
    rw [runDebounceFrom] at hq
    cases b with
    | true =>
      have hhead : headRun (true :: rest) = headRun rest + 1 := by simp [headRun]
      rw [hhead] at h1
      have hcond : ¬ (persistenceFrames ≤ s.motion_persistence_count + 1 ∧
          s.is_recording_clip = false) := by
        intro hc; omega
      rw [step_true_no_start persistenceFrames cooldownFrames (Int.ofNat i) s hcond] at hq
      simp only [Option.toList, List.map_nil, List.nil_append] at hq
      refine ih _ (i + 1) ?_ ?_ q hq
      · show s.motion_persistence_count + 1 + headRun rest < persistenceFrames
        omega
      · exact Nat.lt_of_le_of_lt (maxRun_le_cons true rest) h2
    | false =>
      have hrest1 : headRun rest ≤ maxRun rest := headRun_le_maxRun rest
      have hrest2 : maxRun rest < persistenceFrames :=
        Nat.lt_of_le_of_lt (maxRun_le_cons false rest) h2
      by_cases hc : cooldownFrames ≤ s.motion_cooldown_count + 1 ∧ s.is_recording_clip = true
      · rw [step_false_stop persistenceFrames cooldownFrames (Int.ofNat i) s hc] at hq
        simp only [Option.toList, List.map_cons, List.map_nil, List.cons_append,
          List.nil_append] at hq
        rcases List.mem_cons.mp hq with rfl | hq
        · simp
        · refine ih _ (i + 1) ?_ hrest2 q hq
          show (0 : Nat) + headRun rest < persistenceFrames
          omega
      · rw [step_false_no_stop persistenceFrames cooldownFrames (Int.ofNat i) s hc] at hq
        simp only [Option.toList, List.map_nil, List.nil_append] at hq
        refine ih _ (i + 1) ?_ hrest2 q hq
        show (0 : Nat) + headRun rest < persistenceFrames
        omega

/-- C3: for every sequence of motion samples fed to the debounce logic in which
fewer than `PERSISTENCE_THRESHOLD` (= `MOTION_PERSISTENCE_FRAMES`) consecutive
samples are true — i.e. whose longest run of consecutive `true` samples is
shorter than the threshold — no `StartRecording` is ever emitted. -/
theorem C3_no_start_below_threshold (persistenceFrames cooldownFrames : Nat)
    (samples : List Bool) (h : maxRun samples < persistenceFrames) :
    ∀ q ∈ runDebounce persistenceFrames cooldownFrames samples,
      q.2 ≠ RecEvent.StartRecording := by
  have h1 : initialState.motion_persistence_count + headRun samples < persistenceFrames := by
    have := headRun_le_maxRun samples
    simp only [initialState]
    omega
  exact no_start_aux persistenceFrames cooldownFrames samples initialState 0 h1 h

/-- Witness for C3 at a concrete input: the sample sequence
`[true, true, false, true, true]` has longest true-run 2 below the threshold 3,
and indeed the debounce logic emits no `StartRecording` on it. -/
theorem C3_witness :
    maxRun [true, true, false, true, true] < 3 ∧
      ∀ q ∈ runDebounce 3 5 [true, true, false, true, true],
        q.2 ≠ RecEvent.StartRecording :=
  ⟨by decide, C3_no_start_below_threshold 3 5 [true, true, false, true, true] (by decide)⟩

/-- The motion-sample sequence of the specification scenario: 150 samples,
`true` exactly for samples 10 through 60. -/
def c4_samples : List Bool :=
  (List.range 150).map (fun i => decide (10 ≤ i ∧ i ≤ 60))

/-- C4: on 150 motion samples that are true for samples 10-60 and false
otherwise, with `PERSISTENCE_THRESHOLD = 3` and `COOLDOWN_THRESHOLD = 5`, the
debounce logic emits `StartRecording` exactly at sample 12 and `StopRecording`
exactly at sample 65 (and no other events). -/
theorem C4_scenario_events :
    runDebounce 3 5 c4_samples =
      [(12, RecEvent.StartRecording), (65, RecEvent.StopRecording)] := by
  decide

/-! ## Episode alternation (C7)

The recording flag `is_recording_clip` is toggled from two places in
`src/watcher/main.py`: the debounce callback (start at 112-115, cooldown stop
at 122-125) and the tail of the collector thread `_collect_frames` (185-194),
which ends the episode when the collection loop terminates on its own (maximum
duration or force stop).  A system-level input is therefore either a motion
sample delivered to the callback or the collector ending the episode; the
latter emits the episode's `StopRecording` when a recording is active and is a
no-op otherwise (both places guard on the flag before clearing it). -/

inductive SysInput
  | motionSample (b : Bool)
  | collectorStop
deriving DecidableEq, Repr

/-- One system-level step: a motion sample goes through
`_on_motion_state_change`; a collector self-stop clears the recording flag
(ending the episode) when one is active. -/
def systemStep (persistenceFrames cooldownFrames : Nat) (now : Int)
    (s : DebounceState) : SysInput → DebounceState × Option RecEvent
  | SysInput.motionSample b => on_motion_state_change persistenceFrames cooldownFrames now s b
  | SysInput.collectorStop =>
    if s.is_recording_clip = true then
      ({ s with is_recording_clip := false }, some RecEvent.StopRecording)
    else
      (s, none)

/-- Run the system over a list of inputs, collecting emitted events tagged
with the input index. -/
def runSystemFrom (persistenceFrames cooldownFrames : Nat) (s : DebounceState)
    (i : Nat) : List SysInput → List (Nat × RecEvent)
  | [] => []
  | x :: rest =>
    (systemStep persistenceFrames cooldownFrames (Int.ofNat i) s x).2.toList.map
        (fun e => (i, e)) ++
      runSystemFrom persistenceFrames cooldownFrames
        (systemStep persistenceFrames cooldownFrames (Int.ofNat i) s x).1
        (i + 1) rest

/-- Run the system from the initial state. -/
def runSystem (persistenceFrames cooldownFrames : Nat) (inputs : List SysInput) :
    List (Nat × RecEvent) :=
  runSystemFrom persistenceFrames cooldownFrames initialState 0 inputs

/-- Predicate `altOK r events` holds when, with a recording currently active iff `r`,
the event list strictly alternates: a `StartRecording` only while idle, a
`StopRecording` only while recording. -/
def altOK : Bool → List RecEvent → Bool
  | _, [] => true
  | false, RecEvent.StartRecording :: rest => altOK true rest
  | true, RecEvent.StopRecording :: rest => altOK false rest
  | _, _ => false

/-- Every system step either emits nothing and keeps the recording flag, or
emits `StartRecording` turning the flag on from off, or emits `StopRecording`
turning it off from on. -/
theorem systemStep_cases (persistenceFrames cooldownFrames : Nat) (now : Int)
    (s : DebounceState) (x : SysInput) :
    ((systemStep persistenceFrames cooldownFrames now s x).2 = none ∧
      (systemStep persistenceFrames cooldownFrames now s x).1.is_recording_clip =
        s.is_recording_clip) ∨
    ((systemStep persistenceFrames cooldownFrames now s x).2 = some RecEvent.StartRecording ∧
      s.is_recording_clip = false ∧
      (systemStep persistenceFrames cooldownFrames now s x).1.is_recording_clip = true) ∨
    ((systemStep persistenceFrames cooldownFrames now s x).2 = some RecEvent.StopRecording ∧
      s.is_recording_clip = true ∧
      (systemStep persistenceFrames cooldownFrames now s x).1.is_recording_clip = false) := by
  cases x with
  | collectorStop =>
    by_cases hf : s.is_recording_clip = true
    · right; right; simp [systemStep, hf]
    · left; simp [systemStep, hf]
  | motionSample b =>
    cases b with
    | true =>
      by_cases hc : persistenceFrames ≤ s.motion_persistence_count + 1 ∧
          s.is_recording_clip = false
      · right; left
        simp [systemStep, step_true_start persistenceFrames cooldownFrames now s hc, hc.2]
      · left
        simp [systemStep, step_true_no_start persistenceFrames cooldownFrames now s hc]
    | false =>
      by_cases hc : cooldownFrames ≤ s.motion_cooldown_count + 1 ∧
          s.is_recording_clip = true
      · right; right
        simp [systemStep, step_false_stop persistenceFrames cooldownFrames now s hc, hc.2]
      · left
        simp [systemStep, step_false_no_stop persistenceFrames cooldownFrames now s hc]

theorem alt_aux (persistenceFrames cooldownFrames : Nat) :
    ∀ (inputs : List SysInput) (s : DebounceState) (i : Nat),
      altOK s.is_recording_clip
        ((runSystemFrom persistenceFrames cooldownFrames s i inputs).map Prod.snd) = true := by
  intro inputs
  induction inputs with
  | nil => intro s i; simp [runSystemFrom, altOK]
  | cons x rest ih =>
    intro s i
    rw [runSystemFrom]
    rcases systemStep_cases persistenceFrames cooldownFrames (Int.ofNat i) s x with
      ⟨h2, h1⟩ | ⟨h2, hf, h1⟩ | ⟨h2, hf, h1⟩
    · rw [h2]
      simp only [Option.toList, List.map_nil, List.nil_append]
      have hrec :=
        ih (systemStep persistenceFrames cooldownFrames (Int.ofNat i) s x).1 (i + 1)
      rw [h1] at hrec
      exact hrec
    · rw [h2, hf]
      simp only [Option.toList, List.map_cons, List.map_nil, List.cons_append,
        List.nil_append, List.map_append]
      show altOK true (List.map Prod.snd
        (runSystemFrom persistenceFrames cooldownFrames
          (systemStep persistenceFrames cooldownFrames (Int.ofNat i) s x).1
          (i + 1) rest)) = true
      have hrec :=
        ih (systemStep persistenceFrames cooldownFrames (Int.ofNat i) s x).1 (i + 1)
      rw [h1] at hrec
      exact hrec
    · rw [h2, hf]
      simp only [Option.toList, List.map_cons, List.map_nil, List.cons_append,
        List.nil_append, List.map_append]
      show altOK false (List.map Prod.snd
        (runSystemFrom persistenceFrames cooldownFrames
          (systemStep persistenceFrames cooldownFrames (Int.ofNat i) s x).1
          (i + 1) rest)) = true
      have hrec :=
        ih (systemStep persistenceFrames cooldownFrames (Int.ofNat i) s x).1 (i + 1)
      rw [h1] at hrec
      exact hrec

theorem indices_aux (persistenceFrames cooldownFrames : Nat) :
    ∀ (inputs : List SysInput) (s : DebounceState) (i : Nat),
      (∀ q ∈ runSystemFrom persistenceFrames cooldownFrames s i inputs, i ≤ q.1) ∧
        List.Pairwise (fun a b : Nat × RecEvent => a.1 < b.1)
          (runSystemFrom persistenceFrames cooldownFrames s i inputs) := by
  intro inputs
  induction inputs with
  | nil => intro s i; simp [runSystemFrom]
  | cons x rest ih =>
    intro s i
    rw [runSystemFrom]
    have hhd : ∀ q ∈ (systemStep persistenceFrames cooldownFrames (Int.ofNat i) s x).2.toList.map
        (fun e => (i, e)), q.1 = i := by
      intro q hq
      cases hstep : (systemStep persistenceFrames cooldownFrames (Int.ofNat i) s x).2 with
      | none => rw [hstep] at hq; simp [Option.toList] at hq
      | some e =>
        rw [hstep] at hq
        simp only [Option.toList, List.map_cons, List.map_nil, List.mem_singleton] at hq
        rw [hq]
    have hhdpw : List.Pairwise (fun a b : Nat × RecEvent => a.1 < b.1)
        ((systemStep persistenceFrames cooldownFrames (Int.ofNat i) s x).2.toList.map
          (fun e => (i, e))) := by
      cases hstep : (systemStep persistenceFrames cooldownFrames (Int.ofNat i) s x).2 with
      | none => simp [Option.toList]
      | some e => simp [Option.toList]
    obtain ⟨ihmem, ihpw⟩ :=
      ih (systemStep persistenceFrames cooldownFrames (Int.ofNat i) s x).1 (i + 1)
    constructor
    · intro q hq
      rcases List.mem_append.mp hq with hq | hq
      · exact Nat.le_of_eq (hhd q hq).symm
      · exact Nat.le_of_succ_le (ihmem q hq)
    · refine List.pairwise_append.mpr ⟨hhdpw, ihpw, ?_⟩
      intro a ha b hb
      have h1 : a.1 = i := hhd a ha
      have h2 : i + 1 ≤ b.1 := ihmem b hb
      omega

/-- C7: two recording episodes never overlap.  Over every sequence of
system-level inputs (motion samples and collector self-stops), the emitted
event trace strictly alternates `StartRecording` / `StopRecording` starting
with `StartRecording` — a second `StartRecording` can never occur before the
`StopRecording` matching the previous one — and the event indices are strictly
increasing, so the (start, stop) intervals are pairwise disjoint and ordered. -/
theorem C7_episodes_never_overlap (persistenceFrames cooldownFrames : Nat)
    (inputs : List SysInput) :
    altOK false
        ((runSystem persistenceFrames cooldownFrames inputs).map Prod.snd) = true ∧
      List.Pairwise (fun a b : Nat × RecEvent => a.1 < b.1)
        (runSystem persistenceFrames cooldownFrames inputs) :=
  ⟨alt_aux persistenceFrames cooldownFrames inputs initialState 0,
   (indices_aux persistenceFrames cooldownFrames inputs initialState 0).2⟩

/-! ## Edge-triggered motion notification (C10)
(`MotionDetector._detection_loop`, `src/motion_detector.py` 106-140.)

Each tick the loop computes `current_motion` from the contour areas of the
foreground mask and invokes the callback exactly when it differs from the
`motion_detected` value remembered from the previous tick (initially `false`).
A tick is represented by the list of its contour areas (pixel counts); frames
are otherwise kept abstract. -/

/-- Per-tick motion decision: some contour area exceeds `MIN_MOTION_AREA`
(`area > config.MIN_MOTION_AREA`, `src/motion_detector.py` 127-132). -/
def computeMotion (contourAreas : List Nat) : Bool :=
  contourAreas.any (fun area => MIN_MOTION_AREA < area)

/-- The detection loop from `_detection_loop`: starting from remembered value
`motionDetected` at tick `i`, record a callback invocation `(tick, value)`
whenever the computed motion differs from the remembered value, which is then
updated. -/
def detection_loop (motionDetected : Bool) (i : Nat) : List (List Nat) → List (Nat × Bool)
  | [] => []
  | areas :: rest =>
    if computeMotion areas = motionDetected then
      detection_loop motionDetected (i + 1) rest
    else
      (i, computeMotion areas) :: detection_loop (computeMotion areas) (i + 1) rest

/-- All callback invocations of a detector run over the given ticks, starting
with `motion_detected = False` as in `_detection_loop`. -/
def detectionEvents (ticks : List (List Nat)) : List (Nat × Bool) :=
  detection_loop false 0 ticks

/-- Modelled from the spec side of the claim: the callback is invoked exactly
at those ticks whose computed motion value differs from the value at the
previous tick, the value before the first tick being `false`. -/
def edgeTicksSpec (motions : List Bool) : List (Nat × Bool) :=
  (List.range motions.length).filterMap (fun j =>
    if motions.getD j false = (if j = 0 then false else motions.getD (j - 1) false) then none
    else some (j, motions.getD j false))

theorem detection_loop_eq (ticks : List (List Nat)) : ∀ (prev : Bool) (i0 : Nat),
    detection_loop prev i0 ticks =
      (List.range ticks.length).filterMap (fun j =>
        if (ticks.map computeMotion).getD j false =
            (if j = 0 then prev else (ticks.map computeMotion).getD (j - 1) false) then none
        else some (i0 + j, (ticks.map computeMotion).getD j false)) := by
  induction ticks with
  | nil => intro prev i0; simp [detection_loop]
  | cons a rest ih =>
    intro prev i0
    rw [detection_loop]
    simp only [List.map_cons, List.length_cons]
    rw [List.range_succ_eq_map]
    set f : Nat → Option (Nat × Bool) := (fun j =>
      if (computeMotion a :: List.map computeMotion rest).getD j false =
          (if j = 0 then prev
           else (computeMotion a :: List.map computeMotion rest).getD (j - 1) false) then
        none
      else some (i0 + j, (computeMotion a :: List.map computeMotion rest).getD j false))
      with hf
    by_cases hc : computeMotion a = prev
    · rw [if_pos hc]
      have h0 : f 0 = none := by simp [hf, hc]
      rw [List.filterMap_cons_none h0, List.filterMap_map, ih prev (i0 + 1)]
      refine List.filterMap_congr ?_
      intro j hj
      rw [hf]
      cases j with
      | zero => simp [Function.comp, hc]
      | succ k => simp [Function.comp, Nat.add_assoc, Nat.add_comm, Nat.add_left_comm]
    · rw [if_neg hc]
      have h0 : f 0 = some (i0, computeMotion a) := by simp [hf, hc]
      rw [List.filterMap_cons_some h0, List.filterMap_map, ih (computeMotion a) (i0 + 1)]
      refine congrArg (List.cons (i0, computeMotion a)) ?_
      refine List.filterMap_congr ?_
      intro j hj
      rw [hf]
      cases j with
      | zero => simp [Function.comp]
      | succ k => simp [Function.comp, Nat.add_assoc, Nat.add_comm, Nat.add_left_comm]

/-- C10: motion signals are delivered edge-triggered, not per-sample.  For
every sequence of per-tick contour-area readings, the callback invocations of
the detection loop are exactly the ticks where the computed motion value
differs from the previous tick's value (the value before the first tick being
`false`), tagged with the value at that tick; in particular two consecutive
ticks with the same motion result never produce a second invocation. -/
theorem C10_edge_triggered (ticks : List (List Nat)) :
    detectionEvents ticks = edgeTicksSpec (ticks.map computeMotion) := by
  rw [detectionEvents, detection_loop_eq ticks false 0, edgeTicksSpec]
  simp only [List.length_map]
  exact List.filterMap_congr (by intro j hj; simp)

/-! ## The frame-collection loop (C2)
(`MotionRecordingSystem._collect_frames`, `src/watcher/main.py` 156-194.)

Each loop iteration reads the shared state once: the recording flag
`is_recording_clip` (cleared concurrently by the cooldown path or at shutdown),
the current time, `last_motion_time`, and whether a frame is available.  A run
of the loop is modelled as a recursion over the list of these per-tick
readings (`is_running` is kept `True`: process shutdown is outside the
claim). The loop guard checks the flag and then `MAX_CLIP_DURATION`; the body
appends the frame, then breaks on the force-stop timeout
(`now - last_motion_time > FORCE_STOP_AFTER_MOTION`), then on
`duration >= CLIP_DURATION`. -/

structure CollectTick where
  now : Int
  recordingFlag : Bool
  lastMotion : Int
  frameAvailable : Bool
deriving DecidableEq, Repr

/-- Why the collection loop terminated. -/
inductive StopReason
  | externalStop
  | maxGuard
  | forceStop
  | durationStop
  | outOfTicks
deriving DecidableEq, Repr

/-- The collection loop: returns the number of ticks consumed before stopping,
the stop reason, and the number of frames appended.  `outOfTicks` means the
supplied readings ran out with no stop condition reached. -/
def collect_frames (start : Int) : List CollectTick → Nat × StopReason × Nat
  | [] => (0, StopReason.outOfTicks, 0)
  | t :: rest =>
    if t.recordingFlag = false then (0, StopReason.externalStop, 0)
    else if MAX_CLIP_DURATION ≤ t.now - start then (0, StopReason.maxGuard, 0)
    else if FORCE_STOP_AFTER_MOTION < t.now - t.lastMotion then
      (0, StopReason.forceStop, if t.frameAvailable then 1 else 0)
    else if CLIP_DURATION ≤ t.now - start then
      (0, StopReason.durationStop, if t.frameAvailable then 1 else 0)
    else
      ((collect_frames start rest).1 + 1, (collect_frames start rest).2.1,
        (if t.frameAvailable then 1 else 0) + (collect_frames start rest).2.2)

/-- The first stop condition (in the loop's check order) holding at a tick,
if any. -/
def stopCheck (start : Int) (t : CollectTick) : Option StopReason :=
  if t.recordingFlag = false then some StopReason.externalStop
  else if MAX_CLIP_DURATION ≤ t.now - start then some StopReason.maxGuard
  else if FORCE_STOP_AFTER_MOTION < t.now - t.lastMotion then some StopReason.forceStop
  else if CLIP_DURATION ≤ t.now - start then some StopReason.durationStop
  else none

/-- C2 (amended): for every start time and sequence of per-tick readings, the
collection loop stops exactly once — at the first tick where any stop
condition holds, for the first condition holding there in the loop's check
order (external flag clear from the cooldown path, the `MAX_CLIP_DURATION`
while-guard, the `FORCE_STOP_AFTER_MOTION` timeout since the last motion, and
the recording duration reaching `CLIP_DURATION`) — and at every earlier tick
no stop condition holds; if the readings run out no stop is reported.  In
particular, under sustained motion the duration conditions are the first to
hold and recording ends once `now - start` reaches `CLIP_DURATION`. -/
theorem C2_exactly_one_stop_first_condition (start : Int) (ticks : List CollectTick) :
    ((collect_frames start ticks).2.1 = StopReason.outOfTicks →
      (collect_frames start ticks).1 = ticks.length ∧
        ∀ u ∈ ticks, stopCheck start u = none) ∧
    ((collect_frames start ticks).2.1 ≠ StopReason.outOfTicks →
      ∃ t, ticks.get? (collect_frames start ticks).1 = some t ∧
        stopCheck start t = some (collect_frames start ticks).2.1 ∧
        ∀ k, k < (collect_frames start ticks).1 →
          ∀ u, ticks.get? k = some u → stopCheck start u = none) := by
  induction ticks with
  | nil =>
    constructor
    · intro _
      exact ⟨rfl, by intro u hu; simp at hu⟩
    · intro h
      exact absurd rfl h
  | cons t rest ih =>
    by_cases c1 : t.recordingFlag = false
    · have heq : collect_frames start (t :: rest) = (0, StopReason.externalStop, 0) := by
        rw [collect_frames, if_pos c1]
      have hsc : stopCheck start t = some StopReason.externalStop := by
        rw [stopCheck, if_pos c1]
      rw [heq]
      constructor
      · intro h; exact absurd h (by simp)
      · intro _
        exact ⟨t, rfl, hsc, by intro k hk; omega⟩
    · by_cases c2 : MAX_CLIP_DURATION ≤ t.now - start
      · have heq : collect_frames start (t :: rest) = (0, StopReason.maxGuard, 0) := by
          rw [collect_frames, if_neg c1, if_pos c2]
        have hsc : stopCheck start t = some StopReason.maxGuard := by
          rw [stopCheck, if_neg c1, if_pos c2]
        rw [heq]
        constructor
        · intro h; exact absurd h (by simp)
        · intro _
          exact ⟨t, rfl, hsc, by intro k hk; omega⟩
      · by_cases c3 : FORCE_STOP_AFTER_MOTION < t.now - t.lastMotion
        · have heq : collect_frames start (t :: rest) =
              (0, StopReason.forceStop, if t.frameAvailable then 1 else 0) := by
            rw [collect_frames, if_neg c1, if_neg c2, if_pos c3]
          have hsc : stopCheck start t = some StopReason.forceStop := by
            rw [stopCheck, if_neg c1, if_neg c2, if_pos c3]
          rw [heq]
          constructor
          · intro h; exact absurd h (by simp)
          · intro _
            exact ⟨t, rfl, hsc, by intro k hk; omega⟩
        · by_cases c4 : CLIP_DURATION ≤ t.now - start
          · have heq : collect_frames start (t :: rest) =
                (0, StopReason.durationStop, if t.frameAvailable then 1 else 0) := by
              rw [collect_frames, if_neg c1, if_neg c2, if_neg c3, if_pos c4]
            have hsc : stopCheck start t = some StopReason.durationStop := by
              rw [stopCheck, if_neg c1, if_neg c2, if_neg c3, if_pos c4]
            rw [heq]
            constructor
            · intro h; exact absurd h (by simp)
            · intro _
              exact ⟨t, rfl, hsc, by intro k hk; omega⟩
          · have heq : collect_frames start (t :: rest) =
                ((collect_frames start rest).1 + 1, (collect_frames start rest).2.1,
                  (if t.frameAvailable then 1 else 0) + (collect_frames start rest).2.2) := by
              rw [collect_frames, if_neg c1, if_neg c2, if_neg c3, if_neg c4]
            have hsc_t : stopCheck start t = none := by
              rw [stopCheck, if_neg c1, if_neg c2, if_neg c3, if_neg c4]
            rw [heq]
            constructor
            · intro h
              obtain ⟨hlen, hall⟩ := ih.1 h
              constructor
              · simp [hlen]
              · intro u hu
                rcases List.mem_cons.mp hu with rfl | hu
                · exact hsc_t
                · exact hall u hu
            · intro h
              obtain ⟨t1, hget, hsc1, hmin⟩ := ih.2 h
              refine ⟨t1, ?_, hsc1, ?_⟩
              · simpa using hget
              · intro k hk u hu
                cases k with
                | zero =>
                  simp at hu
                  rw [← hu]
                  exact hsc_t
                | succ k1 =>
                  refine hmin k1 (by omega) u ?_
                  simpa using hu

/-- Sequence of per-tick readings for sustained motion: the recording flag
stays set, every tick reports fresh motion (`last_motion_time = now`), a frame
is available every tick, and ticks are one second apart from the start time. -/
def sustainedMotionTicks : List CollectTick :=
  (List.range 40).map (fun k => ⟨Int.ofNat k, true, Int.ofNat k, true⟩)

/-- Counterexample to C2 as stated: under sustained motion (the flag is never
cleared by the cooldown path and the force-stop timeout never elapses, since
`now - last_motion_time = 0` at every tick) the collection loop nevertheless
stops at tick 10, when the recording duration reaches `CLIP_DURATION = 10`
seconds — strictly less than `MAX_CLIP_DURATION = 30` — refuting the claim
that recording under sustained motion ends when the duration reaches
`MAX_CLIP_DURATION`. -/
theorem C2_counterexample :
    (collect_frames 0 sustainedMotionTicks).2.1 = StopReason.durationStop ∧
    (collect_frames 0 sustainedMotionTicks).1 = 10 ∧
    (∀ t ∈ sustainedMotionTicks, t.recordingFlag = true ∧ t.now - t.lastMotion = 0) ∧
    CLIP_DURATION = 10 ∧ MAX_CLIP_DURATION = 30 ∧ CLIP_DURATION < MAX_CLIP_DURATION := by
  decide

/-- Readings where the debounce cooldown path clears the recording flag at the
second tick. -/
def externalStopTicks : List CollectTick :=
  [⟨0, true, 0, true⟩, ⟨1, false, 1, true⟩]

/-- Witness for the amended C2 theorem at a concrete input: on
`externalStopTicks` the loop observes a stop, and the theorem locates it at
the first tick where a stop condition holds. -/
theorem C2_witness :
    ∃ t, externalStopTicks.get? (collect_frames 0 externalStopTicks).1 = some t ∧
      stopCheck 0 t = some (collect_frames 0 externalStopTicks).2.1 ∧
      ∀ k, k < (collect_frames 0 externalStopTicks).1 →
        ∀ u, externalStopTicks.get? k = some u → stopCheck 0 u = none :=
  (C2_exactly_one_stop_first_condition 0 externalStopTicks).2 (by decide)

/-! ## Atomic clip writing (C1, C5, C6)
(`VideoRecorder.record_clip`, `src/watcher/video_recorder.py` 97-155.)

Paths are modelled structurally as a directory tag (`config.STORAGE_DIR`
`"recorded_clips"` versus `config.TEMP_STORAGE_DIR` `"temp_clips"`) plus a
file name; `os.path.join(dir, filename)` becomes the pairing.  The file
system is a map from paths to file sizes (`os.path.getsize`); a path maps to
`none` when `os.path.exists` is false.  The encoder (`cv2.VideoWriter`) and
`shutil.move` are external effects, summarised by an environment: the size of
the scratch file the encoder leaves behind (`none` when it produces no file)
and whether the move succeeds.  `record_clip` additionally returns the list
of file operations it performed, in order. -/

inductive StorageArea
  | storage
  | tempStorage
deriving DecidableEq, Repr

structure ClipPath where
  dir : StorageArea
  base : String
deriving DecidableEq, Repr

def FileSys : Type := ClipPath → Option Nat

def fsSet (fs : FileSys) (p : ClipPath) (n : Nat) : FileSys :=
  fun q => if q = p then some n else fs q

def fsRemove (fs : FileSys) (p : ClipPath) : FileSys :=
  fun q => if q = p then none else fs q

def fsEmpty : FileSys := fun _ => none

theorem fsSet_self (fs : FileSys) (p : ClipPath) (n : Nat) : fsSet fs p n p = some n :=
  if_pos rfl

theorem fsSet_other (fs : FileSys) (p q : ClipPath) (n : Nat) (h : q ≠ p) :
    fsSet fs p n q = fs q :=
  if_neg h

theorem fsRemove_self (fs : FileSys) (p : ClipPath) : fsRemove fs p p = none :=
  if_pos rfl

theorem fsRemove_other (fs : FileSys) (p q : ClipPath) (h : q ≠ p) :
    fsRemove fs p q = fs q :=
  if_neg h

/-- File operations performed against the two directories. -/
inductive FsOp
  | write (p : ClipPath)
  | remove (p : ClipPath)
  | move (src : ClipPath) (dst : ClipPath)
deriving DecidableEq, Repr

/-- External effects of one `record_clip` call: the generated file name
(timestamp and realized duration), the size of the scratch file the encoder
leaves behind (`none` if `cv2.VideoWriter` produced no file), and whether
`shutil.move` succeeds. -/
structure EncodeEnv where
  filename : String
  encodedSize : Option Nat
  moveOk : Bool

def temp_filepath (env : EncodeEnv) : ClipPath :=
  { dir := StorageArea.tempStorage, base := env.filename }

def final_filepath (env : EncodeEnv) : ClipPath :=
  { dir := StorageArea.storage, base := env.filename }

/-- File-system state after the encode loop (`writer.write` per frame followed
by `writer.release`): either no file was produced or the scratch path now
holds the encoded bytes. -/
def encodeResultFs (env : EncodeEnv) (fs : FileSys) : FileSys :=
  match env.encodedSize with
  | none => fs
  | some n => fsSet fs (temp_filepath env) n

theorem encodeResultFs_none (env : EncodeEnv) (fs : FileSys)
    (henc : env.encodedSize = none) : encodeResultFs env fs = fs := by
  unfold encodeResultFs
  rw [henc]

theorem encodeResultFs_some (env : EncodeEnv) (fs : FileSys) (n : Nat)
    (henc : env.encodedSize = some n) :
    encodeResultFs env fs = fsSet fs (temp_filepath env) n := by
  unfold encodeResultFs
  rw [henc]

structure RecordOutcome where
  result : Option ClipPath
  ops : List FsOp
  fs : FileSys

/-- Embedding of `record_clip(frames)`: return `None` on an empty frame list; otherwise
encode all frames to the scratch path, verify the scratch file
(`not os.path.exists(temp) or os.path.getsize(temp) < 1024` aborts, removing
the scratch file when it exists), then move it to the final path (on a move
failure, remove the scratch file and return `None`). -/
def record_clip (env : EncodeEnv) (frames : List Nat) (fs : FileSys) : RecordOutcome :=
  if frames.isEmpty then { result := none, ops := [], fs := fs }
  else if encodeResultFs env fs (temp_filepath env) = none then
    { result := none
      ops := frames.map (fun _ => FsOp.write (temp_filepath env))
      fs := encodeResultFs env fs }
  else if (encodeResultFs env fs (temp_filepath env)).getD 0 < 1024 then
    { result := none
      ops := frames.map (fun _ => FsOp.write (temp_filepath env)) ++
        [FsOp.remove (temp_filepath env)]
      fs := fsRemove (encodeResultFs env fs) (temp_filepath env) }
  else if env.moveOk then
    { result := some (final_filepath env)
      ops := frames.map (fun _ => FsOp.write (temp_filepath env)) ++
        [FsOp.move (temp_filepath env) (final_filepath env)]
      fs := fsSet (fsRemove (encodeResultFs env fs) (temp_filepath env)) (final_filepath env)
        ((encodeResultFs env fs (temp_filepath env)).getD 0) }
  else
    { result := none
      ops := frames.map (fun _ => FsOp.write (temp_filepath env)) ++
        [FsOp.remove (temp_filepath env)]
      fs := fsRemove (encodeResultFs env fs) (temp_filepath env) }

theorem temp_ne_storage (env : EncodeEnv) (p : ClipPath) (hp : p.dir = StorageArea.storage) :
    p ≠ temp_filepath env := by
  intro h
  rw [h] at hp
  simp [temp_filepath] at hp

theorem encodeResultFs_storage (env : EncodeEnv) (fs : FileSys) (p : ClipPath)
    (hp : p.dir = StorageArea.storage) : encodeResultFs env fs p = fs p := by
  cases henc : env.encodedSize with
  | none => rw [encodeResultFs_none env fs henc]
  | some n =>
    rw [encodeResultFs_some env fs n henc]
    exact fsSet_other fs (temp_filepath env) p n (temp_ne_storage env p hp)

/-- C1: the final directory only ever gains a complete clip.  For every
environment, frame list and initial file-system state: every write the
encoder performs targets a path in the scratch directory, every removal
targets the scratch directory, and a path of the final storage directory
changes only when it is the generated final path, `record_clip` returned it
as its result, the performed operations are exactly the per-frame scratch
writes followed by the single move of the verified scratch file, and the
verified scratch file had at least the minimum plausible size of 1024
bytes — no intermediate step creates or modifies a file in the final
directory. -/
theorem C1_final_dir_only_by_verified_move (env : EncodeEnv) (frames : List Nat)
    (fs : FileSys) :
    (∀ p, FsOp.write p ∈ (record_clip env frames fs).ops → p.dir = StorageArea.tempStorage) ∧
    (∀ p, FsOp.remove p ∈ (record_clip env frames fs).ops → p.dir = StorageArea.tempStorage) ∧
    (∀ p, p.dir = StorageArea.storage → (record_clip env frames fs).fs p ≠ fs p →
      p = final_filepath env ∧
      (record_clip env frames fs).result = some p ∧
      (∃ n, 1024 ≤ n ∧ encodeResultFs env fs (temp_filepath env) = some n ∧
        (record_clip env frames fs).fs p = some n) ∧
      (record_clip env frames fs).ops =
        frames.map (fun _ => FsOp.write (temp_filepath env)) ++
          [FsOp.move (temp_filepath env) p]) := by
  have hwr : ∀ p, FsOp.write p ∈ frames.map (fun _ => FsOp.write (temp_filepath env)) →
      p.dir = StorageArea.tempStorage := by
    intro p hp
    rcases List.mem_map.mp hp with ⟨a, _, hpa⟩
    cases hpa
    rfl
  by_cases hemp : frames.isEmpty
  · have heq : record_clip env frames fs = { result := none, ops := [], fs := fs } := by
      rw [record_clip, if_pos hemp]
    rw [heq]
    refine ⟨?_, ?_, ?_⟩
    · intro p hp; simp at hp
    · intro p hp; simp at hp
    · intro p _ hne; exact absurd rfl hne
  · by_cases hnone : encodeResultFs env fs (temp_filepath env) = none
    · have heq : record_clip env frames fs =
          { result := none
            ops := frames.map (fun _ => FsOp.write (temp_filepath env))
            fs := encodeResultFs env fs } := by
        rw [record_clip, if_neg hemp, if_pos hnone]
      rw [heq]
      refine ⟨hwr, ?_, ?_⟩
      · intro p hp
        rcases List.mem_map.mp hp with ⟨a, _, hpa⟩
        cases hpa
      · intro p hp hne
        exact absurd (encodeResultFs_storage env fs p hp) hne
    · by_cases hsmall : (encodeResultFs env fs (temp_filepath env)).getD 0 < 1024
      · have heq : record_clip env frames fs =
            { result := none
              ops := frames.map (fun _ => FsOp.write (temp_filepath env)) ++
                [FsOp.remove (temp_filepath env)]
              fs := fsRemove (encodeResultFs env fs) (temp_filepath env) } := by
          rw [record_clip, if_neg hemp, if_neg hnone, if_pos hsmall]
        rw [heq]
        refine ⟨?_, ?_, ?_⟩
        · intro p hp
          rcases List.mem_append.mp hp with hp | hp
          · exact hwr p hp
          · simp at hp
        · intro p hp
          rcases List.mem_append.mp hp with hp | hp
          · rcases List.mem_map.mp hp with ⟨a, _, hpa⟩; cases hpa
          · rw [List.mem_singleton] at hp
            cases hp
            rfl
        · intro p hp hne
          have hkeep : fsRemove (encodeResultFs env fs) (temp_filepath env) p = fs p := by
            rw [fsRemove_other (encodeResultFs env fs) (temp_filepath env) p
              (temp_ne_storage env p hp)]
            exact encodeResultFs_storage env fs p hp
          exact absurd hkeep hne
      · obtain ⟨n, hn⟩ := Option.ne_none_iff_exists'.mp hnone
        have hget : (encodeResultFs env fs (temp_filepath env)).getD 0 = n := by
          rw [hn]
          rfl
        by_cases hmv : env.moveOk
        · have heq : record_clip env frames fs =
              { result := some (final_filepath env)
                ops := frames.map (fun _ => FsOp.write (temp_filepath env)) ++
                  [FsOp.move (temp_filepath env) (final_filepath env)]
                fs := fsSet (fsRemove (encodeResultFs env fs) (temp_filepath env))
                  (final_filepath env)
                  ((encodeResultFs env fs (temp_filepath env)).getD 0) } := by
            rw [record_clip, if_neg hemp, if_neg hnone, if_neg hsmall, if_pos hmv]
          rw [heq]
          refine ⟨?_, ?_, ?_⟩
          · intro p hp
            rcases List.mem_append.mp hp with hp | hp
            · exact hwr p hp
            · simp at hp
          · intro p hp
            rcases List.mem_append.mp hp with hp | hp
            · rcases List.mem_map.mp hp with ⟨a, _, hpa⟩; cases hpa
            · simp at hp
          · intro p hp hne
            by_cases hfin : p = final_filepath env
            · subst hfin
              refine ⟨rfl, rfl, ⟨n, by rw [hget] at hsmall; omega, hn, ?_⟩, rfl⟩
              show fsSet (fsRemove (encodeResultFs env fs) (temp_filepath env))
                (final_filepath env) ((encodeResultFs env fs (temp_filepath env)).getD 0)
                (final_filepath env) = some n
              rw [fsSet_self, hget]
            · have hkeep : fsSet (fsRemove (encodeResultFs env fs) (temp_filepath env))
                  (final_filepath env) ((encodeResultFs env fs (temp_filepath env)).getD 0)
                  p = fs p := by
                rw [fsSet_other _ (final_filepath env) p _ hfin,
                  fsRemove_other (encodeResultFs env fs) (temp_filepath env) p
                    (temp_ne_storage env p hp)]
                exact encodeResultFs_storage env fs p hp
              exact absurd hkeep hne
        · have heq : record_clip env frames fs =
              { result := none
                ops := frames.map (fun _ => FsOp.write (temp_filepath env)) ++
                  [FsOp.remove (temp_filepath env)]
                fs := fsRemove (encodeResultFs env fs) (temp_filepath env) } := by
            rw [record_clip, if_neg hemp, if_neg hnone, if_neg hsmall, if_neg hmv]
          rw [heq]
          refine ⟨?_, ?_, ?_⟩
          · intro p hp
            rcases List.mem_append.mp hp with hp | hp
            · exact hwr p hp
            · simp at hp
          · intro p hp
            rcases List.mem_append.mp hp with hp | hp
            · rcases List.mem_map.mp hp with ⟨a, _, hpa⟩; cases hpa
            · rw [List.mem_singleton] at hp
              cases hp
              rfl
          · intro p hp hne
            have hkeep : fsRemove (encodeResultFs env fs) (temp_filepath env) p = fs p := by
              rw [fsRemove_other (encodeResultFs env fs) (temp_filepath env) p
                (temp_ne_storage env p hp)]
              exact encodeResultFs_storage env fs p hp
            exact absurd hkeep hne

/-- The environment of a successful recording used by the C1 witness. -/
def env0 : EncodeEnv :=
  { filename := "motion_20240101_120000_1s.mp4", encodedSize := some 2048, moveOk := true }

/-- Witness for C1 at a concrete input: a successful one-frame recording on an
empty file system changes the final path, and the theorem identifies the
change as the single verified move. -/
theorem C1_witness :
    final_filepath env0 = final_filepath env0 ∧
    (record_clip env0 [1] fsEmpty).result = some (final_filepath env0) ∧
    (∃ n, 1024 ≤ n ∧ encodeResultFs env0 fsEmpty (temp_filepath env0) = some n ∧
      (record_clip env0 [1] fsEmpty).fs (final_filepath env0) = some n) ∧
    (record_clip env0 [1] fsEmpty).ops =
      [1].map (fun _ => FsOp.write (temp_filepath env0)) ++
        [FsOp.move (temp_filepath env0) (final_filepath env0)] :=
  (C1_final_dir_only_by_verified_move env0 [1] fsEmpty).2.2 (final_filepath env0) rfl
    (by decide)

/-- C5: every failure after the encode step begins — no scratch file produced,
a scratch file below the minimum plausible size of 1024 bytes, or a failing
move — makes `record_clip` return no clip path, leaves no scratch artifact
behind, and leaves every path of the final storage directory unchanged. -/
theorem C5_failure_cleanup (env : EncodeEnv) (frames : List Nat) (fs : FileSys)
    (hne : frames.isEmpty = false)
    (hfresh : fs (temp_filepath env) = none)
    (hfail : env.encodedSize = none ∨ (∃ n, env.encodedSize = some n ∧ n < 1024) ∨
      env.moveOk = false) :
    (record_clip env frames fs).result = none ∧
    (record_clip env frames fs).fs (temp_filepath env) = none ∧
    ∀ p, p.dir = StorageArea.storage → (record_clip env frames fs).fs p = fs p := by
  have hemp : ¬ frames.isEmpty := by
    rw [hne]
    exact Bool.false_ne_true
  cases henc : env.encodedSize with
  | none =>
    have hnone : encodeResultFs env fs (temp_filepath env) = none := by
      rw [encodeResultFs_none env fs henc]
      exact hfresh
    have heq : record_clip env frames fs =
        { result := none
          ops := frames.map (fun _ => FsOp.write (temp_filepath env))
          fs := encodeResultFs env fs } := by
      rw [record_clip, if_neg hemp, if_pos hnone]
    rw [heq]
    exact ⟨rfl, hnone, fun p hp => encodeResultFs_storage env fs p hp⟩
  | some n =>
    have hsome : encodeResultFs env fs (temp_filepath env) = some n := by
      rw [encodeResultFs_some env fs n henc]
      exact fsSet_self fs (temp_filepath env) n
    have hnone : ¬ encodeResultFs env fs (temp_filepath env) = none := by
      rw [hsome]
      exact Option.some_ne_none n
    have hget : (encodeResultFs env fs (temp_filepath env)).getD 0 = n := by
      rw [hsome]
      rfl
    by_cases hsmall : (encodeResultFs env fs (temp_filepath env)).getD 0 < 1024
    · have heq : record_clip env frames fs =
          { result := none
            ops := frames.map (fun _ => FsOp.write (temp_filepath env)) ++
              [FsOp.remove (temp_filepath env)]
            fs := fsRemove (encodeResultFs env fs) (temp_filepath env) } := by
        rw [record_clip, if_neg hemp, if_neg hnone, if_pos hsmall]
      rw [heq]
      refine ⟨rfl, fsRemove_self (encodeResultFs env fs) (temp_filepath env), ?_⟩
      intro p hp
      show fsRemove (encodeResultFs env fs) (temp_filepath env) p = fs p
      rw [fsRemove_other (encodeResultFs env fs) (temp_filepath env) p
        (temp_ne_storage env p hp)]
      exact encodeResultFs_storage env fs p hp
    · have hmvfalse : env.moveOk = false := by
        rcases hfail with h | ⟨m, hm, hmlt⟩ | h
        · rw [henc] at h
          cases h
        · rw [henc] at hm
          cases hm
          rw [hget] at hsmall
          exact absurd hmlt hsmall
        · exact h
      have hmv : ¬ env.moveOk = true := by
        rw [hmvfalse]
        exact Bool.false_ne_true
      have heq : record_clip env frames fs =
          { result := none
            ops := frames.map (fun _ => FsOp.write (temp_filepath env)) ++
              [FsOp.remove (temp_filepath env)]
            fs := fsRemove (encodeResultFs env fs) (temp_filepath env) } := by
        rw [record_clip, if_neg hemp, if_neg hnone, if_neg hsmall, if_neg hmv]
      rw [heq]
      refine ⟨rfl, fsRemove_self (encodeResultFs env fs) (temp_filepath env), ?_⟩
      intro p hp
      show fsRemove (encodeResultFs env fs) (temp_filepath env) p = fs p
      rw [fsRemove_other (encodeResultFs env fs) (temp_filepath env) p
        (temp_ne_storage env p hp)]
      exact encodeResultFs_storage env fs p hp

/-- The environment of a truncated encode (100 bytes, below the 1024-byte
minimum) used by the C5 witness. -/
def env1 : EncodeEnv :=
  { filename := "motion_20240101_130000_1s.mp4", encodedSize := some 100, moveOk := true }

/-- Witness for C5 at a concrete input: a one-frame recording whose encoder
produces a 100-byte scratch file (below the minimum) yields no result, no
scratch artifact, and an unchanged final directory. -/
theorem C5_witness :
    (record_clip env1 [0] fsEmpty).result = none ∧
    (record_clip env1 [0] fsEmpty).fs (temp_filepath env1) = none ∧
    ∀ p, p.dir = StorageArea.storage → (record_clip env1 [0] fsEmpty).fs p = fsEmpty p :=
  C5_failure_cleanup env1 [0] fsEmpty rfl rfl (Or.inr (Or.inl ⟨100, rfl, by decide⟩))

/-- C6: invoked with an empty frame list, `record_clip` returns no path,
performs no file operation (in particular the encoder is never invoked), and
leaves the file system unchanged, so no scratch or final file is created. -/
theorem C6_empty_frames_no_clip (env : EncodeEnv) (fs : FileSys) :
    record_clip env [] fs = { result := none, ops := [], fs := fs } := by
  rw [record_clip]
  rfl

/-! ## Shadow handling of the motion estimator (C8)
(`MotionDetector.__init__`, `src/motion_detector.py` 29-31.)

The background subtractor is constructed as
`cv2.createBackgroundSubtractorMOG2(history=100,
varThreshold=config.MOTION_THRESHOLD, detectShadows=False)`.  The constructor
arguments are embedded as a record; the foreground-mask semantics of the
OpenCV MOG2 subtractor is modelled from its documented behaviour: with
`detectShadows=True` shadow pixels are marked with the value 127 in the mask,
with `detectShadows=False` shadow pixels are not distinguished from ordinary
foreground and appear at the full value 255. -/

structure BackgroundSubtractorMOG2Args where
  history : Nat
  varThreshold : Nat
  detectShadows : Bool
deriving DecidableEq, Repr

/-- The constructor call of `MotionDetector.__init__`. -/
def background_subtractor : BackgroundSubtractorMOG2Args :=
  { history := 100, varThreshold := MOTION_THRESHOLD, detectShadows := false }

/-- Classification of a pixel by the background model. -/
inductive PixelClass
  | background
  | foreground
  | shadow
deriving DecidableEq, Repr

/-- Modelled from the documented OpenCV MOG2 mask semantics: background pixels
are 0, foreground pixels 255, and shadow pixels 127 when shadow detection is
enabled but full foreground value 255 when it is disabled. -/
def mog2MaskValue (detectShadows : Bool) : PixelClass → Nat
  | PixelClass.background => 0
  | PixelClass.foreground => 255
  | PixelClass.shadow => if detectShadows then 127 else 255

/-- A pixel contributes to the contours found in the mask iff its mask value
is non-zero (`cv2.findContours` treats any non-zero pixel as foreground). -/
def pixelInContour (detectShadows : Bool) (c : PixelClass) : Bool :=
  mog2MaskValue detectShadows c ≠ 0

/-- Counterexample to C8 as stated: the motion estimator does not run with
shadow suppression enabled — the subtractor is constructed with
`detectShadows=False`. -/
theorem C8_counterexample : ¬ (background_subtractor.detectShadows = true) := by
  decide

/-- C8 (amended): the motion estimator constructs its MOG2 background
subtractor with shadow detection disabled (`detectShadows=False`), so shadow
pixels receive the full foreground mask value 255, are part of the detected
contours, and a contour of shadow pixels alone whose area exceeds
`MIN_MOTION_AREA` (e.g. 1501 pixels) yields a motion=true sample. -/
theorem C8_shadows_count_as_motion :
    background_subtractor.detectShadows = false ∧
    mog2MaskValue background_subtractor.detectShadows PixelClass.shadow = 255 ∧
    pixelInContour background_subtractor.detectShadows PixelClass.shadow = true ∧
    computeMotion [1501] = true := by
  decide

/-! ## Retention sweep (C9)
(`MotionRecordingSystem._cleanup_old_clips`, `src/watcher/main.py` 196-232.)

A directory listing is a list of (file name, creation time) entries, times in
seconds.  The sweep deletes from the storage directory every
`.{CLIP_FORMAT}` file whose creation time is before
`now - CLIP_RETENTION_DAYS` days, and from the temporary directory every
`.{CLIP_FORMAT}` file older than one hour. -/

structure FileEntry where
  name : String
  ctime : Int
deriving DecidableEq, Repr

/-- Deletion test of the storage directory: the file name ends with a dot and
`CLIP_FORMAT`, and
`file_time < datetime.now() - timedelta(days=CLIP_RETENTION_DAYS)`. -/
def isOldClip (now : Int) (f : FileEntry) : Bool :=
  f.name.endsWith ("." ++ CLIP_FORMAT) && decide (f.ctime < now - CLIP_RETENTION_DAYS * 86400)

/-- Deletion test of the temporary directory: the file name ends with a dot
and `CLIP_FORMAT`, and `file_time < datetime.now() - timedelta(hours=1)`. -/
def isOrphanTemp (now : Int) (f : FileEntry) : Bool :=
  f.name.endsWith ("." ++ CLIP_FORMAT) && decide (f.ctime < now - 3600)

structure SweepResult where
  storageFiles : List FileEntry
  tempFiles : List FileEntry
  deletedClips : List FileEntry
  deletedTemp : List FileEntry
deriving DecidableEq, Repr

/-- One run of `_cleanup_old_clips` over the two directory listings: the
deleted entries are those matching the age predicates, the surviving entries
the rest. -/
def cleanup_old_clips (now : Int) (storageFiles tempFiles : List FileEntry) : SweepResult :=
  { storageFiles := storageFiles.filter (fun f => ! isOldClip now f)
    tempFiles := tempFiles.filter (fun f => ! isOrphanTemp now f)
    deletedClips := storageFiles.filter (fun f => isOldClip now f)
    deletedTemp := tempFiles.filter (fun f => isOrphanTemp now f) }

theorem filter_not_keep {α : Type} (p : α → Bool) (l : List α) :
    (l.filter (fun a => ! p a)).filter (fun a => ! p a) = l.filter (fun a => ! p a) := by
  induction l with
  | nil => rfl
  | cons a t ih =>
    cases hpa : p a with
    | false => simp [List.filter_cons, hpa, ih]
    | true => simp [List.filter_cons, hpa, ih]

theorem filter_not_delete {α : Type} (p : α → Bool) (l : List α) :
    (l.filter (fun a => ! p a)).filter (fun a => p a) = [] := by
  induction l with
  | nil => rfl
  | cons a t ih =>
    cases hpa : p a with
    | false => simp [List.filter_cons, hpa, ih]
    | true => simp [List.filter_cons, hpa, ih]

/-- C9: the retention sweep is idempotent.  Running `_cleanup_old_clips` twice
with the same clock and no files added in between leaves the directory
listings of the first run unchanged and deletes nothing on the second run. -/
theorem C9_retention_idempotent (now : Int) (storageFiles tempFiles : List FileEntry) :
    cleanup_old_clips now
        (cleanup_old_clips now storageFiles tempFiles).storageFiles
        (cleanup_old_clips now storageFiles tempFiles).tempFiles =
      { storageFiles := (cleanup_old_clips now storageFiles tempFiles).storageFiles
        tempFiles := (cleanup_old_clips now storageFiles tempFiles).tempFiles
        deletedClips := []
        deletedTemp := [] } := by
  simp only [cleanup_old_clips, SweepResult.mk.injEq]
  exact ⟨filter_not_keep (isOldClip now) storageFiles,
    filter_not_keep (isOrphanTemp now) tempFiles,
    filter_not_delete (isOldClip now) storageFiles,
    filter_not_delete (isOrphanTemp now) tempFiles⟩

end RoadRanger
